import Mathlib

/-
Verification of the natural-language specification of
`polkadot-transaction-generator` against `src/transaction-generator.js`.

The JavaScript source is shallowly embedded below.  JS promises become an
explicit "first settle wins" fold over the list of status events that the
`signAndSend` callback receives; thrown exceptions become `Except`/tagged
outcomes; the opaque SDK surface (`keyring.addFromSeed`,
`keyring.decodeAddress`, `paymentInfo`, `signAndSend`) becomes an explicit
environment record so that call order and call counts are observable.
JS numbers produced by `parseFloat` are idealized as `Option ℚ` (`none` is
`NaN`); the IEEE-754-specific conversions `dotToPlanck`/`planckToDot` are
treated as opaque string-valued parameters wherever their output only flows
into display strings (their numeric precision is settled separately).
String prefix tests are expressed over `String.data` (the character list),
which is extensionally the same check the source performs.
-/

/-- System-level event delivered alongside a transaction status.  The source
only discriminates `system.ExtrinsicSuccess` and `system.ExtrinsicFailed`
(the latter carrying a data payload, printed via `errorEvent?.event?.data`);
every other event is irrelevant to the callback. -/
inductive SysEvent where
  | extrinsicSuccess : SysEvent
  | extrinsicFailed : String → SysEvent
  | otherEvent : String → SysEvent
deriving DecidableEq

/-- Mirror of `this.api.events.system.ExtrinsicSuccess.is(event)` (line 63). -/
def isSuccessEvent : SysEvent → Bool
  | .extrinsicSuccess => true
  | _ => false

/-- Mirror of `this.api.events.system.ExtrinsicFailed.is(event)` (line 79). -/
def isFailedEvent : SysEvent → Bool
  | .extrinsicFailed _ => true
  | _ => false

/-- Mirror of `events.find(... ExtrinsicFailed.is ...)` followed by the
`?.event?.data` projection (lines 78-81): the payload of the first
`ExtrinsicFailed` event, if any. -/
def findFailedData (evs : List SysEvent) : Option String :=
  match evs.find? isFailedEvent with
  | some (.extrinsicFailed d) => some d
  | _ => none

/-- JS template-string rendering of a possibly-undefined payload:
`template ${x}` prints "undefined" when `x` is `undefined`. -/
def showData : Option String → String
  | some d => d
  | none => "undefined"

/-- Transaction status as the callback sees it.  `otherStatus` stands for all
statuses with `isInBlock` and `isFinalized` both false (Ready, Broadcast, ...),
which the callback ignores. -/
inductive TxStatus where
  | otherStatus : TxStatus
  | inBlock : String → TxStatus
  | finalized : String → TxStatus
deriving DecidableEq

/-- Mirror of `status.isInBlock` (line 58). -/
def TxStatus.isInBlock : TxStatus → Bool
  | .inBlock _ => true
  | _ => false

/-- One invocation payload of the `signAndSend` callback:
`(\x7b status, events \x7d)` (line 57). -/
structure StatusEvent where
  status : TxStatus
  events : List SysEvent
deriving DecidableEq

/-- The plain result object built at lines 67-75 on success. -/
structure TxResult where
  success : Bool
  blockHash : String
  txHash : String
  fromAddr : String
  toAddr : String
  amount : String
  fee : String
deriving DecidableEq

/-- A settled JS promise: `resolve(result)` or `reject(new Error(msg))`. -/
inductive Settle where
  | resolved : TxResult → Settle
  | rejected : String → Settle
deriving DecidableEq

/-- Data captured by the callback closure before the subscription starts:
`transfer.hash`, `sender.address`, `toAddress`, and the two display strings
computed from `planckToDot` at lines 73-74. -/
structure TxParams where
  txHash : String
  fromAddr : String
  toAddr : String
  amountDot : String
  feeDot : String
deriving DecidableEq

/-- One execution of the callback body (lines 57-85), returning the settle
request it makes, if any.  On `isInBlock` it inspects the event list: any
`ExtrinsicSuccess` resolves with the result object; otherwise it rejects with
the `ExtrinsicFailed` payload message.  On `isFinalized` it only logs.  All
other statuses do nothing. -/
def handleStatusEvent (p : TxParams) (e : StatusEvent) : Option Settle :=
  match e.status with
  | .inBlock bh =>
      if e.events.any isSuccessEvent then
        some (.resolved ⟨true, bh, p.txHash, p.fromAddr, p.toAddr, p.amountDot, p.feeDot⟩)
      else
        some (.rejected ("Transaction failed: " ++ showData (findFailedData e.events)))
  | .finalized _ => none
  | .otherStatus => none

/-- Observable state of the promise + subscription pair: the settled value, if
any (a JS promise settles at most once; later `resolve`/`reject` calls are
no-ops), and how many times the callback has been invoked.  The source never
captures or calls the unsubscribe function returned by `signAndSend`, so the
callback is invoked for every delivered event. -/
structure TrackerState where
  settled : Option Settle
  processed : Nat
deriving DecidableEq

/-- Delivery of one status event to the (still subscribed) callback. -/
def trackerStep (p : TxParams) (s : TrackerState) (e : StatusEvent) : TrackerState :=
  match s.settled with
  | some v => ⟨some v, s.processed + 1⟩
  | none => ⟨handleStatusEvent p e, s.processed + 1⟩

/-- Folding a whole delivered status stream through the callback, starting
from a fresh pending promise. -/
def runTracker (p : TxParams) (evs : List StatusEvent) : TrackerState :=
  evs.foldl (trackerStep p) ⟨none, 0⟩

/-- The SDK calls `sendTransaction`/`executeTransaction` can make, recorded in
invocation order.  `initNetwork` stands for the source's network-connecting
method (`ApiPromise.create` wrapper). -/
inductive ChainCall where
  | addFromSeed : ChainCall
  | decodeAddress : ChainCall
  | paymentInfo : ChainCall
  | signAndSend : ChainCall
  | initNetwork : ChainCall
deriving DecidableEq

/-- Result of awaiting the promise returned by `sendTransaction`:
a synchronous throw (wrapped by the catch at line 90), a settled promise, or
a promise that never settles (stream ended with no `InBlock`). -/
inductive TxOutcome where
  | thrown : String → TxOutcome
  | promiseResolved : TxResult → TxOutcome
  | promiseRejected : String → TxOutcome
  | pendingForever : TxOutcome
deriving DecidableEq

/-- Environment supplied by the wrapped SDK for one `sendTransaction` call:
account derivation, address decoding, the fee query and the submission.
`submit` yields either a synchronous rejection (signature/nonce refused
before broadcast) or the list of status events the network delivers to the
callback.  `txHash` is `transfer.hash`. -/
structure ChainEnv where
  addFromSeed : String → Except String String
  decodeAddress : String → Except String Unit
  paymentInfo : Except String String
  submit : Except String (List StatusEvent)
  txHash : String

/-- Mirror of `isValidAddress` (lines 99-106): try `keyring.decodeAddress`,
return `true` on success and `false` when it throws. -/
def isValidAddress (decodeAddress : String → Except String Unit) (address : String) : Bool :=
  match decodeAddress address with
  | .ok _ => true
  | .error _ => false

/-- How the awaited promise surfaces a tracker's settled value. -/
def settleToOutcome : Option Settle → TxOutcome
  | some (.resolved r) => .promiseResolved r
  | some (.rejected m) => .promiseRejected m
  | none => .pendingForever

/-- Everything observable about one `sendTransaction` call: the outcome, the
SDK calls made in order, and the final callback/tracker state (fresh when the
status stream was never entered). -/
structure SendResult where
  outcome : TxOutcome
  calls : List ChainCall
  tracker : TrackerState
deriving DecidableEq

/-- Mirror of `sendTransaction` (lines 32-92).  `fmt` stands for
`this.planckToDot` (an IEEE-754 string formatter whose output only feeds the
display fields).  Control flow: derive the sender from the seed; validate the
recipient via `isValidAddress` (throwing `Invalid recipient address` when it
fails); build the transfer; await `paymentInfo`; then `signAndSend`, whose
synchronous failure rejects the returned promise unwrapped (`.catch(reject)`,
line 86) while the delivered status stream is folded through the callback.
Synchronous throws are wrapped by the catch at line 90. -/
def sendTransaction (fmt : String → String) (env : ChainEnv)
    (privateKey toAddress amount : String) : SendResult :=
  match env.addFromSeed privateKey with
  | .error e =>
      { outcome := .thrown ("Failed to send transaction: " ++ e),
        calls := [.addFromSeed], tracker := ⟨none, 0⟩ }
  | .ok senderAddr =>
      if isValidAddress env.decodeAddress toAddress then
        match env.paymentInfo with
        | .error e =>
            { outcome := .thrown ("Failed to send transaction: " ++ e),
              calls := [.addFromSeed, .decodeAddress, .paymentInfo], tracker := ⟨none, 0⟩ }
        | .ok fee =>
            match env.submit with
            | .error e =>
                { outcome := .promiseRejected e,
                  calls := [.addFromSeed, .decodeAddress, .paymentInfo, .signAndSend],
                  tracker := ⟨none, 0⟩ }
            | .ok evs =>
                let t := runTracker
                  ⟨env.txHash, senderAddr, toAddress,
                   fmt amount ++ " DOT", fmt fee ++ " DOT"⟩ evs
                { outcome := settleToOutcome t.settled,
                  calls := [.addFromSeed, .decodeAddress, .paymentInfo, .signAndSend],
                  tracker := t }
      else
        { outcome := .thrown "Failed to send transaction: Invalid recipient address",
          calls := [.addFromSeed, .decodeAddress], tracker := ⟨none, 0⟩ }

/-- Mirror of `privateKey.startsWith('0x')` (line 190), expressed over the
character list of the string (extensionally the same test). -/
def hasHexPrefix (s : String) : Bool :=
  s.data.take 2 == ['0', 'x']

/-- Mirror of `isNaN(amount) || amount <= 0` (line 195) on the idealized
`parseFloat` result: `none` is `NaN`. -/
def amountInvalid : Option ℚ → Bool
  | none => true
  | some a => decide (a ≤ 0)

/-- Mirror of `validateInputs` (lines 186-205): collects, in source order, the
private-key length/prefix error, the amount error, and the receiver-address
length error.  Note the key check is only a `0x` prefix plus total length 66;
the characters after the prefix are not inspected. -/
def validateInputs (privateKey receiverAddress : String) (amount : Option ℚ) : List String :=
  (if !hasHexPrefix privateKey || privateKey.length != 66 then
    ["Private key must be in hex format (0x...) and 64 characters long"] else []) ++
  (if amountInvalid amount then
    ["Amount must be a positive number"] else []) ++
  (if receiverAddress == "" || decide (receiverAddress.length < 40) then
    ["Invalid receiver address format"] else [])

/-- Environment for one `executeTransaction` run: the SDK surface plus the
outcome of `initialize` (network connection), which may throw. -/
structure ExecEnv where
  chain : ChainEnv
  initRes : Except String Unit

/-- Observables of one `executeTransaction` run: the lines it logs itself
(lines logged inside callees are not tracked here), whether the
network-connecting method was entered, the SDK calls made, and whether the
run hung awaiting a never-settling promise (in which case the `finally`
block is never reached). -/
structure ExecResult where
  printed : List String
  initCalled : Bool
  chainCalls : List ChainCall
  hung : Bool
deriving DecidableEq

/-- The post-validation part of `executeTransaction` (lines 222-256): connect,
re-validate the receiver with the keyring, convert the amount with
`dotToPlanck` (the IEEE-754 formatter `d2p`), send, and report.  Every branch
ends with the `finally` teardown line except the hung one. -/
def execConnected (fmt : String → String) (d2p : Option ℚ → String) (env : ExecEnv)
    (privateKey receiverAddress : String) (amount : Option ℚ) : ExecResult :=
  match env.initRes with
  | .error e =>
      { printed := ["\nConnecting to network...", "\nTransaction Failed:",
                    "Error: " ++ e, "\nDisconnected from network"],
        initCalled := true, chainCalls := [.initNetwork], hung := false }
  | .ok _ =>
      if isValidAddress env.chain.decodeAddress receiverAddress then
        let res := sendTransaction fmt env.chain privateKey receiverAddress (d2p amount)
        match res.outcome with
        | .promiseResolved r =>
            { printed := ["\nConnecting to network...", "Processing your transaction...",
                          "\nTransaction Successful!", "Final Result:",
                          "Block Hash: " ++ r.blockHash, "TX Hash: " ++ r.txHash,
                          "Amount Sent: " ++ r.amount, "Fee Paid: " ++ r.fee,
                          "\nDisconnected from network"],
              initCalled := true,
              chainCalls := [.initNetwork, .decodeAddress] ++ res.calls, hung := false }
        | .thrown m =>
            { printed := ["\nConnecting to network...", "Processing your transaction...",
                          "\nTransaction Failed:", "Error: " ++ m,
                          "\nDisconnected from network"],
              initCalled := true,
              chainCalls := [.initNetwork, .decodeAddress] ++ res.calls, hung := false }
        | .promiseRejected m =>
            { printed := ["\nConnecting to network...", "Processing your transaction...",
                          "\nTransaction Failed:", "Error: " ++ m,
                          "\nDisconnected from network"],
              initCalled := true,
              chainCalls := [.initNetwork, .decodeAddress] ++ res.calls, hung := false }
        | .pendingForever =>
            { printed := ["\nConnecting to network...", "Processing your transaction..."],
              initCalled := true,
              chainCalls := [.initNetwork, .decodeAddress] ++ res.calls, hung := true }
      else
        { printed := ["\nConnecting to network...", "\nTransaction Failed:",
                      "Error: Invalid receiver address format", "\nDisconnected from network"],
          initCalled := true, chainCalls := [.initNetwork, .decodeAddress], hung := false }

/-- Mirror of `executeTransaction` (lines 207-257) after `getUserInputs`
returned the given tuple: validate; on any validation error print the
itemized list and return (the `finally` still logs the teardown line) without
touching the network; otherwise proceed to the connected path. -/
def executeTransaction (fmt : String → String) (d2p : Option ℚ → String) (env : ExecEnv)
    (privateKey receiverAddress : String) (amount : Option ℚ) : ExecResult :=
  if validateInputs privateKey receiverAddress amount = [] then
    execConnected fmt d2p env privateKey receiverAddress amount
  else
    { printed := "\nValidation Errors:" ::
        ((validateInputs privateKey receiverAddress amount).map (fun e => "- " ++ e) ++
          ["\nDisconnected from network"]),
      initCalled := false, chainCalls := [], hung := false }

/-- One finalized block as delivered by the finalized-head feed, with its
extrinsic hash list. -/
structure FinalizedBlock where
  blockNumber : Nat
  blockHash : String
  extrinsics : List String
deriving DecidableEq

/-- Terminal result of the Block Inclusion Monitor. -/
structure InclusionRecord where
  blockNumber : Nat
  blockHash : String
  txHash : String
deriving DecidableEq

/-- State of the Block Inclusion Monitor: its resolution, whether it has
released the finalized-head subscription, and how many resolutions it has
produced. -/
structure MonitorState where
  result : Option InclusionRecord
  unsubscribed : Bool
  callbacks : Nat
deriving DecidableEq

/-- Modelled from the spec: the Block Inclusion Monitor (`monitorTransaction`
in the README's usage examples) has no implementation under `src/`; this step
follows spec section 4.4 — for each newly finalized block, scan its extrinsic
list for the target hash; on first match produce the `InclusionRecord` and
unsubscribe; once unsubscribed, later blocks are not observed. -/
def monitorStep (txHash : String) (s : MonitorState) (b : FinalizedBlock) : MonitorState :=
  if s.unsubscribed then s
  else if b.extrinsics.contains txHash then
    { result := some ⟨b.blockNumber, b.blockHash, txHash⟩, unsubscribed := true,
      callbacks := s.callbacks + 1 }
  else s

/-- Modelled from the spec: the monitor's single-shot search over the
finalized-block feed, starting unresolved and subscribed. -/
def runMonitor (txHash : String) (blocks : List FinalizedBlock) : MonitorState :=
  blocks.foldl (monitorStep txHash) ⟨none, false, 0⟩

/-- Definition following the spec's words, for comparison with the source's
check: a secret in the spec's sense is a `0x`-prefixed hex string of total
length 66, i.e. the 64 characters after the prefix are hex digits.  (The
source's `validateInputs` checks only the prefix and the total length.) -/
def specHexSecret (s : String) : Bool :=
  hasHexPrefix s && s.length == 66 &&
    (s.data.drop 2).all (fun c =>
      c.isDigit || (decide ('a' ≤ c) && decide (c ≤ 'f')) ||
        (decide ('A' ≤ c) && decide (c ≤ 'F')))

/-- Concrete callback parameters used by the concrete runs below. -/
def trackParams : TxParams :=
  ⟨"0xTX", "SENDER", "DEST", "1.000000 DOT", "0.010000 DOT"⟩

/-- Concrete status stream: inclusion with a success event, then finality. -/
def successThenFinalized : List StatusEvent :=
  [⟨.inBlock "0xB", [.extrinsicSuccess]⟩, ⟨.finalized "0xF", []⟩]

/-- Concrete SDK environment on which every call succeeds and the delivered
status stream is `successThenFinalized`. -/
def envSuccess : ChainEnv :=
  { addFromSeed := fun _ => .ok "SENDER",
    decodeAddress := fun _ => .ok (),
    paymentInfo := .ok "156",
    submit := .ok successThenFinalized,
    txHash := "0xTX" }

/-- Concrete SDK environment whose stream reports inclusion with an
`ExtrinsicFailed` event and no success event. -/
def envFailedTx : ChainEnv :=
  { addFromSeed := fun _ => .ok "SENDER",
    decodeAddress := fun _ => .ok (),
    paymentInfo := .ok "156",
    submit := .ok [⟨.inBlock "0xB", [.otherEvent "Withdraw", .extrinsicFailed "BadOrigin"]⟩,
                   ⟨.finalized "0xF", []⟩],
    txHash := "0xTX" }

/-- Concrete SDK environment whose address decoding always throws. -/
def envBadAddr : ChainEnv :=
  { addFromSeed := fun _ => .ok "SENDER",
    decodeAddress := fun _ => .error "Decoding failed",
    paymentInfo := .ok "156",
    submit := .ok successThenFinalized,
    txHash := "0xTX" }

/-- Concrete SDK environment whose submission is rejected synchronously. -/
def envSubmitRejected : ChainEnv :=
  { addFromSeed := fun _ => .ok "SENDER",
    decodeAddress := fun _ => .ok (),
    paymentInfo := .ok "156",
    submit := .error "1010: Invalid Transaction",
    txHash := "0xTX" }

/-- Concrete CLI environment wrapping `envSuccess` with a successful connect. -/
def execEnvDemo : ExecEnv := ⟨envSuccess, .ok ()⟩

theorem trackerStep_processed (p : TxParams) (s : TrackerState) (e : StatusEvent) :
    (trackerStep p s e).processed = s.processed + 1 := by
  cases hs : s.settled <;> simp [trackerStep, hs]

theorem foldl_trackerStep_processed (p : TxParams) :
    ∀ (evs : List StatusEvent) (s : TrackerState),
      (evs.foldl (trackerStep p) s).processed = s.processed + evs.length
  | [], s => rfl
  | e :: t, s => by
      rw [List.foldl_cons, foldl_trackerStep_processed p t (trackerStep p s e),
        trackerStep_processed]
      simp [List.length_cons]
      omega

theorem trackerStep_settled_some (p : TxParams) (s : TrackerState) (e : StatusEvent)
    (v : Settle) (h : s.settled = some v) : (trackerStep p s e).settled = some v := by
  simp [trackerStep, h]

theorem foldl_trackerStep_settled_some (p : TxParams) :
    ∀ (evs : List StatusEvent) (s : TrackerState) (v : Settle),
      s.settled = some v → (evs.foldl (trackerStep p) s).settled = some v
  | [], _, _, h => h
  | e :: t, s, v, h => by
      rw [List.foldl_cons]
      exact foldl_trackerStep_settled_some p t _ v (trackerStep_settled_some p s e v h)

theorem handleStatusEvent_eq_none (p : TxParams) (e : StatusEvent)
    (h : e.status.isInBlock = false) : handleStatusEvent p e = none := by
  cases hs : e.status with
  | otherStatus => simp [handleStatusEvent, hs]
  | finalized bh => simp [handleStatusEvent, hs]
  | inBlock bh => rw [hs] at h; simp [TxStatus.isInBlock] at h

theorem trackerStep_settled_skip (p : TxParams) (s : TrackerState) (e : StatusEvent)
    (h : handleStatusEvent p e = none) : (trackerStep p s e).settled = s.settled := by
  cases hs : s.settled <;> simp [trackerStep, hs, h]

theorem foldl_trackerStep_skip (p : TxParams) :
    ∀ (evs : List StatusEvent) (s : TrackerState),
      (∀ e ∈ evs, e.status.isInBlock = false) →
      (evs.foldl (trackerStep p) s).settled = s.settled
  | [], _, _ => rfl
  | e :: t, s, h => by
      rw [List.foldl_cons,
        foldl_trackerStep_skip p t (trackerStep p s e)
          (fun x hx => h x (List.mem_cons_of_mem _ hx)),
        trackerStep_settled_skip p s e
          (handleStatusEvent_eq_none p e (h e (List.mem_cons_self _ _)))]

theorem monitorStep_unsub (txh : String) (s : MonitorState) (b : FinalizedBlock)
    (h : s.unsubscribed = true) : monitorStep txh s b = s := by
  simp [monitorStep, h]

theorem foldl_monitorStep_unsub (txh : String) :
    ∀ (blocks : List FinalizedBlock) (s : MonitorState),
      s.unsubscribed = true → blocks.foldl (monitorStep txh) s = s
  | [], _, _ => rfl
  | b :: t, s, h => by
      rw [List.foldl_cons, monitorStep_unsub txh s b h, foldl_monitorStep_unsub txh t s h]

theorem monitorStep_nomatch (txh : String) (s : MonitorState) (b : FinalizedBlock)
    (hb : b.extrinsics.contains txh = false) (hs : s.unsubscribed = false) :
    monitorStep txh s b = s := by
  unfold monitorStep
  rw [if_neg (by simp [hs]), if_neg (by simpa using hb)]

theorem foldl_monitorStep_nomatch (txh : String) :
    ∀ (blocks : List FinalizedBlock) (s : MonitorState),
      s.unsubscribed = false →
      (∀ b ∈ blocks, b.extrinsics.contains txh = false) →
      blocks.foldl (monitorStep txh) s = s
  | [], _, _, _ => rfl
  | b :: t, s, hs, h => by
      rw [List.foldl_cons, monitorStep_nomatch txh s b (h b (List.mem_cons_self _ _)) hs,
        foldl_monitorStep_nomatch txh t s hs (fun x hx => h x (List.mem_cons_of_mem _ hx))]

theorem sendTransaction_ok_path (fmt : String → String) (env : ChainEnv)
    (privateKey toAddress amount senderAddr fee : String) (evs : List StatusEvent)
    (hseed : env.addFromSeed privateKey = Except.ok senderAddr)
    (haddr : isValidAddress env.decodeAddress toAddress = true)
    (hfee : env.paymentInfo = Except.ok fee)
    (hsub : env.submit = Except.ok evs) :
    sendTransaction fmt env privateKey toAddress amount =
      { outcome := settleToOutcome (runTracker
          ⟨env.txHash, senderAddr, toAddress, fmt amount ++ " DOT", fmt fee ++ " DOT"⟩
          evs).settled,
        calls := [.addFromSeed, .decodeAddress, .paymentInfo, .signAndSend],
        tracker := runTracker
          ⟨env.txHash, senderAddr, toAddress, fmt amount ++ " DOT", fmt fee ++ " DOT"⟩
          evs } := by
  unfold sendTransaction
  rw [hseed, haddr, hfee, hsub]
  simp

/-- C1: for every status stream that emits an `InBlock` event whose event list
contains `ExtrinsicSuccess` and later emits `Finalized`, `sendTransaction`'s
promise resolves exactly once, with the success result carrying the inclusion
block hash and the transaction hash; the later `Finalized` event (and anything
after it) produces no additional outcome and does not override the settled
result. -/
theorem sendTransaction_success_first_wins
    (fmt : String → String) (env : ChainEnv)
    (privateKey toAddress amount senderAddr fee bh fh : String)
    (ibEvents finEvents : List SysEvent) (pre mid post : List StatusEvent)
    (hseed : env.addFromSeed privateKey = Except.ok senderAddr)
    (haddr : isValidAddress env.decodeAddress toAddress = true)
    (hfee : env.paymentInfo = Except.ok fee)
    (hpre : ∀ e ∈ pre, e.status.isInBlock = false)
    (hsuccess : ibEvents.any isSuccessEvent = true)
    (hsub : env.submit = Except.ok
      (pre ++ ⟨.inBlock bh, ibEvents⟩ :: (mid ++ ⟨.finalized fh, finEvents⟩ :: post))) :
    (sendTransaction fmt env privateKey toAddress amount).outcome =
      .promiseResolved ⟨true, bh, env.txHash, senderAddr, toAddress,
        fmt amount ++ " DOT", fmt fee ++ " DOT"⟩ ∧
    (sendTransaction fmt env privateKey toAddress amount).tracker.settled =
      some (.resolved ⟨true, bh, env.txHash, senderAddr, toAddress,
        fmt amount ++ " DOT", fmt fee ++ " DOT"⟩) := by
  rw [sendTransaction_ok_path fmt env privateKey toAddress amount senderAddr fee _
    hseed haddr hfee hsub]
  have hrun : (runTracker
      ⟨env.txHash, senderAddr, toAddress, fmt amount ++ " DOT", fmt fee ++ " DOT"⟩
      (pre ++ ⟨.inBlock bh, ibEvents⟩ :: (mid ++ ⟨.finalized fh, finEvents⟩ :: post))).settled =
      some (.resolved ⟨true, bh, env.txHash, senderAddr, toAddress,
        fmt amount ++ " DOT", fmt fee ++ " DOT"⟩) := by
    unfold runTracker
    rw [List.foldl_append, List.foldl_cons]
    have hset : (pre.foldl (trackerStep
        ⟨env.txHash, senderAddr, toAddress, fmt amount ++ " DOT", fmt fee ++ " DOT"⟩)
        ⟨none, 0⟩).settled = none :=
      foldl_trackerStep_skip _ pre ⟨none, 0⟩ hpre
    refine foldl_trackerStep_settled_some _ _ _ _ ?_
    simp [trackerStep, hset, handleStatusEvent, hsuccess]
  exact ⟨by simp [hrun, settleToOutcome], hrun⟩

/-- C1 witness: concrete run over `envSuccess`, whose stream is `InBlock` with
`ExtrinsicSuccess` followed by `Finalized`. -/
theorem sendTransaction_success_first_wins_witness :
    (sendTransaction id envSuccess "0xKEY" "DEST" "1000").outcome =
      .promiseResolved ⟨true, "0xB", "0xTX", "SENDER", "DEST", "1000 DOT", "156 DOT"⟩ ∧
    (sendTransaction id envSuccess "0xKEY" "DEST" "1000").tracker.settled =
      some (.resolved ⟨true, "0xB", "0xTX", "SENDER", "DEST", "1000 DOT", "156 DOT"⟩) :=
  sendTransaction_success_first_wins id envSuccess "0xKEY" "DEST" "1000" "SENDER" "156"
    "0xB" "0xF" [.extrinsicSuccess] [] [] [] []
    rfl rfl rfl (by simp) rfl rfl

/-- C2: for every status stream that emits an `InBlock` event whose event list
contains an `ExtrinsicFailed` event and no `ExtrinsicSuccess`, the promise is
rejected with the failure event's payload in its message, and it never
transitions to any other outcome even if `Finalized` (or anything else)
arrives afterward. -/
theorem sendTransaction_failed_rejects
    (fmt : String → String) (env : ChainEnv)
    (privateKey toAddress amount senderAddr fee bh d : String)
    (ibEvents : List SysEvent) (pre rest : List StatusEvent)
    (hseed : env.addFromSeed privateKey = Except.ok senderAddr)
    (haddr : isValidAddress env.decodeAddress toAddress = true)
    (hfee : env.paymentInfo = Except.ok fee)
    (hpre : ∀ e ∈ pre, e.status.isInBlock = false)
    (hnosuccess : ibEvents.any isSuccessEvent = false)
    (hfail : findFailedData ibEvents = some d)
    (hsub : env.submit = Except.ok (pre ++ ⟨.inBlock bh, ibEvents⟩ :: rest)) :
    (sendTransaction fmt env privateKey toAddress amount).outcome =
      .promiseRejected ("Transaction failed: " ++ d) ∧
    (sendTransaction fmt env privateKey toAddress amount).tracker.settled =
      some (.rejected ("Transaction failed: " ++ d)) := by
  rw [sendTransaction_ok_path fmt env privateKey toAddress amount senderAddr fee _
    hseed haddr hfee hsub]
  have hrun : (runTracker
      ⟨env.txHash, senderAddr, toAddress, fmt amount ++ " DOT", fmt fee ++ " DOT"⟩
      (pre ++ ⟨.inBlock bh, ibEvents⟩ :: rest)).settled =
      some (.rejected ("Transaction failed: " ++ d)) := by
    unfold runTracker
    rw [List.foldl_append, List.foldl_cons]
    have hset : (pre.foldl (trackerStep
        ⟨env.txHash, senderAddr, toAddress, fmt amount ++ " DOT", fmt fee ++ " DOT"⟩)
        ⟨none, 0⟩).settled = none :=
      foldl_trackerStep_skip _ pre ⟨none, 0⟩ hpre
    refine foldl_trackerStep_settled_some _ _ _ _ ?_
    simp [trackerStep, hset, handleStatusEvent, hnosuccess, hfail, showData]
  exact ⟨by simp [hrun, settleToOutcome], hrun⟩

/-- C2 witness: concrete run over `envFailedTx`, whose stream reports
inclusion with `ExtrinsicFailed "BadOrigin"` and no success event, followed by
`Finalized`. -/
theorem sendTransaction_failed_rejects_witness :
    (sendTransaction id envFailedTx "0xKEY" "DEST" "1000").outcome =
      .promiseRejected ("Transaction failed: " ++ "BadOrigin") ∧
    (sendTransaction id envFailedTx "0xKEY" "DEST" "1000").tracker.settled =
      some (.rejected ("Transaction failed: " ++ "BadOrigin")) :=
  sendTransaction_failed_rejects id envFailedTx "0xKEY" "DEST" "1000" "SENDER" "156"
    "0xB" "BadOrigin" [.otherEvent "Withdraw", .extrinsicFailed "BadOrigin"]
    [] [⟨.finalized "0xF", []⟩]
    rfl rfl rfl (by simp) rfl rfl rfl

/-- C4: whenever address validation fails (the keyring decode throws),
`sendTransaction` throws the invalid-recipient-address error and neither
`paymentInfo` nor `signAndSend` is ever invoked (the only SDK calls made are
the seed derivation and the address decode, and no status event is
processed). -/
theorem sendTransaction_invalid_address_no_network
    (fmt : String → String) (env : ChainEnv)
    (privateKey toAddress amount senderAddr : String)
    (hseed : env.addFromSeed privateKey = Except.ok senderAddr)
    (haddr : isValidAddress env.decodeAddress toAddress = false) :
    (sendTransaction fmt env privateKey toAddress amount).outcome =
      .thrown "Failed to send transaction: Invalid recipient address" ∧
    (sendTransaction fmt env privateKey toAddress amount).calls =
      [.addFromSeed, .decodeAddress] ∧
    ChainCall.paymentInfo ∉ (sendTransaction fmt env privateKey toAddress amount).calls ∧
    ChainCall.signAndSend ∉ (sendTransaction fmt env privateKey toAddress amount).calls ∧
    (sendTransaction fmt env privateKey toAddress amount).tracker.processed = 0 := by
  have hsend : sendTransaction fmt env privateKey toAddress amount =
      { outcome := .thrown "Failed to send transaction: Invalid recipient address",
        calls := [.addFromSeed, .decodeAddress], tracker := ⟨none, 0⟩ } := by
    unfold sendTransaction
    rw [hseed, haddr]
    simp
  rw [hsend]
  refine ⟨rfl, rfl, ?_, ?_, rfl⟩ <;> simp

/-- C4 witness: concrete run over `envBadAddr`, whose address decode throws. -/
theorem sendTransaction_invalid_address_no_network_witness :
    (sendTransaction id envBadAddr "0xKEY" "NOT_AN_ADDRESS" "1000").outcome =
      .thrown "Failed to send transaction: Invalid recipient address" ∧
    (sendTransaction id envBadAddr "0xKEY" "NOT_AN_ADDRESS" "1000").calls =
      [.addFromSeed, .decodeAddress] ∧
    ChainCall.paymentInfo ∉ (sendTransaction id envBadAddr "0xKEY" "NOT_AN_ADDRESS" "1000").calls ∧
    ChainCall.signAndSend ∉ (sendTransaction id envBadAddr "0xKEY" "NOT_AN_ADDRESS" "1000").calls ∧
    (sendTransaction id envBadAddr "0xKEY" "NOT_AN_ADDRESS" "1000").tracker.processed = 0 :=
  sendTransaction_invalid_address_no_network id envBadAddr "0xKEY" "NOT_AN_ADDRESS" "1000"
    "SENDER" rfl rfl

/-- C8: if the underlying `signAndSend` call fails synchronously, the promise
returned by `sendTransaction` is rejected with the underlying failure itself
(propagated unmasked, not wrapped) and no status-stream event is ever
processed. -/
theorem sendTransaction_submit_rejected_propagates
    (fmt : String → String) (env : ChainEnv)
    (privateKey toAddress amount senderAddr fee e : String)
    (hseed : env.addFromSeed privateKey = Except.ok senderAddr)
    (haddr : isValidAddress env.decodeAddress toAddress = true)
    (hfee : env.paymentInfo = Except.ok fee)
    (hsub : env.submit = Except.error e) :
    (sendTransaction fmt env privateKey toAddress amount).outcome = .promiseRejected e ∧
    (sendTransaction fmt env privateKey toAddress amount).tracker.processed = 0 ∧
    (sendTransaction fmt env privateKey toAddress amount).tracker.settled = none := by
  have hsend : sendTransaction fmt env privateKey toAddress amount =
      { outcome := .promiseRejected e,
        calls := [.addFromSeed, .decodeAddress, .paymentInfo, .signAndSend],
        tracker := ⟨none, 0⟩ } := by
    unfold sendTransaction
    rw [hseed, haddr, hfee, hsub]
    simp
  rw [hsend]
  exact ⟨rfl, rfl, rfl⟩

/-- C8 witness: concrete run over `envSubmitRejected`. -/
theorem sendTransaction_submit_rejected_propagates_witness :
    (sendTransaction id envSubmitRejected "0xKEY" "DEST" "1000").outcome =
      .promiseRejected "1010: Invalid Transaction" ∧
    (sendTransaction id envSubmitRejected "0xKEY" "DEST" "1000").tracker.processed = 0 ∧
    (sendTransaction id envSubmitRejected "0xKEY" "DEST" "1000").tracker.settled = none :=
  sendTransaction_submit_rejected_propagates id envSubmitRejected "0xKEY" "DEST" "1000"
    "SENDER" "156" "1010: Invalid Transaction" rfl rfl rfl rfl

/-- C3 counterexample: on the concrete stream `InBlock`-with-success then
`Finalized`, the promise settles terminally at the first event (shown by the
run over the one-event prefix), yet the full run has `processed = 2`: the
`Finalized` event is still delivered to the callback after resolution (the
source's line 84 logs it), because `sendTransaction` never captures or calls
the unsubscribe function returned by `signAndSend`.  Under the claim the
listener would have been released at the terminal moment and the second event
would never have been processed. -/
theorem tracker_listener_survives_resolution_cex :
    (runTracker trackParams (successThenFinalized.take 1)).settled =
      some (.resolved ⟨true, "0xB", "0xTX", "SENDER", "DEST",
        "1.000000 DOT", "0.010000 DOT"⟩) ∧
    (runTracker trackParams successThenFinalized).processed = 2 := by
  exact ⟨rfl, rfl⟩

/-- C3 amended: the status-stream subscription is never released; after a
terminal outcome the callback keeps receiving every subsequently delivered
event (`processed` equals the whole stream length), but those later events
never change the settled outcome (first settle wins). -/
theorem tracker_never_released_first_settle_wins
    (p : TxParams) (evs more : List StatusEvent) (v : Settle)
    (h : (runTracker p evs).settled = some v) :
    (runTracker p (evs ++ more)).processed = evs.length + more.length ∧
    (runTracker p (evs ++ more)).settled = some v := by
  constructor
  · have := foldl_trackerStep_processed p (evs ++ more) ⟨none, 0⟩
    simpa [runTracker, List.length_append] using this
  · unfold runTracker at h ⊢
    rw [List.foldl_append]
    exact foldl_trackerStep_settled_some p more _ v h

/-- C3 amended witness: concrete instantiation on the success-then-finalized
stream. -/
theorem tracker_never_released_first_settle_wins_witness :
    (runTracker trackParams
      ([⟨.inBlock "0xB", [.extrinsicSuccess]⟩] ++ [⟨.finalized "0xF", []⟩])).processed =
      1 + 1 ∧
    (runTracker trackParams
      ([⟨.inBlock "0xB", [.extrinsicSuccess]⟩] ++ [⟨.finalized "0xF", []⟩])).settled =
      some (.resolved ⟨true, "0xB", "0xTX", "SENDER", "DEST",
        "1.000000 DOT", "0.010000 DOT"⟩) :=
  tracker_never_released_first_settle_wins trackParams
    [⟨.inBlock "0xB", [.extrinsicSuccess]⟩] [⟨.finalized "0xF", []⟩]
    (.resolved ⟨true, "0xB", "0xTX", "SENDER", "DEST", "1.000000 DOT", "0.010000 DOT"⟩)
    rfl

/-- C7: given only a transaction hash, the monitor scans each finalized
block's extrinsic list; on the first block containing a matching hash it
produces exactly one `InclusionRecord` referencing that block and
unsubscribes, and blocks observed after the match trigger no additional
resolutions or callbacks (`callbacks = 1` regardless of what follows). -/
theorem runMonitor_first_match_unsubscribes
    (txh : String) (pre : List FinalizedBlock) (b : FinalizedBlock)
    (post : List FinalizedBlock)
    (hpre : ∀ bl ∈ pre, bl.extrinsics.contains txh = false)
    (hb : b.extrinsics.contains txh = true) :
    runMonitor txh (pre ++ b :: post) =
      ⟨some ⟨b.blockNumber, b.blockHash, txh⟩, true, 1⟩ := by
  unfold runMonitor
  rw [List.foldl_append, foldl_monitorStep_nomatch txh pre ⟨none, false, 0⟩ rfl hpre,
    List.foldl_cons]
  have hstep : monitorStep txh ⟨none, false, 0⟩ b =
      ⟨some ⟨b.blockNumber, b.blockHash, txh⟩, true, 1⟩ := by
    unfold monitorStep
    rw [if_neg (by simp), if_pos (by simpa using hb)]
  rw [hstep, foldl_monitorStep_unsub txh post _ rfl]

/-- C7 witness: the spec's five-block scenario — only block 3 contains the
target hash; the monitor resolves with block 3's record, unsubscribes, and
blocks 4 and 5 trigger nothing. -/
theorem runMonitor_five_blocks_witness :
    runMonitor "0xT"
      [⟨1, "h1", ["a1"]⟩, ⟨2, "h2", []⟩, ⟨3, "h3", ["b1", "0xT"]⟩,
       ⟨4, "h4", ["c1"]⟩, ⟨5, "h5", []⟩] =
      ⟨some ⟨3, "h3", "0xT"⟩, true, 1⟩ :=
  runMonitor_first_match_unsubscribes "0xT" [⟨1, "h1", ["a1"]⟩, ⟨2, "h2", []⟩]
    ⟨3, "h3", ["b1", "0xT"]⟩ [⟨4, "h4", ["c1"]⟩, ⟨5, "h5", []⟩]
    (by decide) (by decide)

/-- C10: `isValidAddress` is total over all string inputs and all decoders:
it returns `true` exactly when the keyring decode succeeds and `false`
exactly when it throws, never propagating the exception. -/
theorem isValidAddress_total (decode : String → Except String Unit) (a : String) :
    (isValidAddress decode a = true ↔ decode a = .ok ()) ∧
    (isValidAddress decode a = false ↔ ∃ e, decode a = .error e) := by
  cases h : decode a with
  | ok u => cases u; simp [isValidAddress, h]
  | error e => simp [isValidAddress, h]

/-- C6: for every amount that is non-numeric (`NaN`) or at most zero, the
amount error is among the validation errors and `executeTransaction` returns
before any network call: the connect step is never entered and zero SDK calls
are made. -/
theorem executeTransaction_invalid_amount_no_network
    (fmt : String → String) (d2p : Option ℚ → String) (env : ExecEnv)
    (privateKey receiverAddress : String) (amount : Option ℚ)
    (h : amountInvalid amount = true) :
    "Amount must be a positive number" ∈ validateInputs privateKey receiverAddress amount ∧
    (executeTransaction fmt d2p env privateKey receiverAddress amount).initCalled = false ∧
    (executeTransaction fmt d2p env privateKey receiverAddress amount).chainCalls = [] := by
  have hmem : "Amount must be a positive number" ∈
      validateInputs privateKey receiverAddress amount := by
    simp [validateInputs, h]
  have hne : validateInputs privateKey receiverAddress amount ≠ [] :=
    List.ne_nil_of_mem hmem
  unfold executeTransaction
  rw [if_neg hne]
  exact ⟨hmem, rfl, rfl⟩

/-- C6 witness: a `NaN` amount (non-numeric input). -/
theorem executeTransaction_invalid_amount_no_network_witness :
    "Amount must be a positive number" ∈
      validateInputs "0xKEY" "5GrwvaEF5zXb26Fz9rcQpDWS57CtERHpNehXCPcNoHGKutQY" none ∧
    (executeTransaction id (fun _ => "0") execEnvDemo "0xKEY"
      "5GrwvaEF5zXb26Fz9rcQpDWS57CtERHpNehXCPcNoHGKutQY" none).initCalled = false ∧
    (executeTransaction id (fun _ => "0") execEnvDemo "0xKEY"
      "5GrwvaEF5zXb26Fz9rcQpDWS57CtERHpNehXCPcNoHGKutQY" none).chainCalls = [] :=
  executeTransaction_invalid_amount_no_network id (fun _ => "0") execEnvDemo "0xKEY"
    "5GrwvaEF5zXb26Fz9rcQpDWS57CtERHpNehXCPcNoHGKutQY" none rfl

/-- C9 counterexample: a secret that is 0x-prefixed and 66 characters long
but not a hex string (64 times `z`) passes `validateInputs` unchallenged when
the other inputs are fine, and `executeTransaction` then proceeds to the
network: the connect step is entered.  Under the claim, this input should
have produced validation errors and no network I/O. -/
theorem executeTransaction_nonhex_secret_cex :
    specHexSecret "0xzzzzzzzzzzzzzzzzzzzzzzzzzzzzzzzzzzzzzzzzzzzzzzzzzzzzzzzzzzzzzzzz" = false ∧
    validateInputs "0xzzzzzzzzzzzzzzzzzzzzzzzzzzzzzzzzzzzzzzzzzzzzzzzzzzzzzzzzzzzzzzzz"
      "5GrwvaEF5zXb26Fz9rcQpDWS57CtERHpNehXCPcNoHGKutQY" (some 1) = [] ∧
    (executeTransaction id (fun _ => "1000000000000") execEnvDemo
      "0xzzzzzzzzzzzzzzzzzzzzzzzzzzzzzzzzzzzzzzzzzzzzzzzzzzzzzzzzzzzzzzzz"
      "5GrwvaEF5zXb26Fz9rcQpDWS57CtERHpNehXCPcNoHGKutQY" (some 1)).initCalled = true ∧
    ChainCall.initNetwork ∈ (executeTransaction id (fun _ => "1000000000000") execEnvDemo
      "0xzzzzzzzzzzzzzzzzzzzzzzzzzzzzzzzzzzzzzzzzzzzzzzzzzzzzzzzzzzzzzzzz"
      "5GrwvaEF5zXb26Fz9rcQpDWS57CtERHpNehXCPcNoHGKutQY" (some 1)).chainCalls := by
  refine ⟨by decide, by decide, by decide, by decide⟩

/-- C9 amended: whenever the secret fails the checks the source actually
performs — the `0x` prefix or the total length 66 (hex-digit content is not
checked) — or the amount is not a positive number, `executeTransaction`
prints the itemized list of all validation errors and returns without any
network I/O: the connect step is never entered and zero SDK calls are made. -/
theorem executeTransaction_validation_failure_prints_and_returns
    (fmt : String → String) (d2p : Option ℚ → String) (env : ExecEnv)
    (privateKey receiverAddress : String) (amount : Option ℚ)
    (h : (!hasHexPrefix privateKey || privateKey.length != 66) = true ∨
      amountInvalid amount = true) :
    validateInputs privateKey receiverAddress amount ≠ [] ∧
    (executeTransaction fmt d2p env privateKey receiverAddress amount).printed =
      "\nValidation Errors:" ::
        ((validateInputs privateKey receiverAddress amount).map (fun e => "- " ++ e) ++
          ["\nDisconnected from network"]) ∧
    (executeTransaction fmt d2p env privateKey receiverAddress amount).initCalled = false ∧
    (executeTransaction fmt d2p env privateKey receiverAddress amount).chainCalls = [] := by
  have hne : validateInputs privateKey receiverAddress amount ≠ [] := by
    cases h with
    | inl hk =>
        have hmem : "Private key must be in hex format (0x...) and 64 characters long" ∈
            validateInputs privateKey receiverAddress amount := by
          simp [validateInputs, hk]
        exact List.ne_nil_of_mem hmem
    | inr ha =>
        have hmem : "Amount must be a positive number" ∈
            validateInputs privateKey receiverAddress amount := by
          simp [validateInputs, ha]
        exact List.ne_nil_of_mem hmem
  unfold executeTransaction
  rw [if_neg hne]
  exact ⟨hne, rfl, rfl, rfl⟩

/-- C9 amended witness: a secret without the `0x` prefix. -/
theorem executeTransaction_validation_failure_witness :
    validateInputs "abc" "5GrwvaEF5zXb26Fz9rcQpDWS57CtERHpNehXCPcNoHGKutQY" (some 1) ≠ [] ∧
    (executeTransaction id (fun _ => "0") execEnvDemo "abc"
      "5GrwvaEF5zXb26Fz9rcQpDWS57CtERHpNehXCPcNoHGKutQY" (some 1)).printed =
      "\nValidation Errors:" ::
        ((validateInputs "abc" "5GrwvaEF5zXb26Fz9rcQpDWS57CtERHpNehXCPcNoHGKutQY"
          (some 1)).map (fun e => "- " ++ e) ++ ["\nDisconnected from network"]) ∧
    (executeTransaction id (fun _ => "0") execEnvDemo "abc"
      "5GrwvaEF5zXb26Fz9rcQpDWS57CtERHpNehXCPcNoHGKutQY" (some 1)).initCalled = false ∧
    (executeTransaction id (fun _ => "0") execEnvDemo "abc"
      "5GrwvaEF5zXb26Fz9rcQpDWS57CtERHpNehXCPcNoHGKutQY" (some 1)).chainCalls = [] :=
  executeTransaction_validation_failure_prints_and_returns id (fun _ => "0") execEnvDemo
    "abc" "5GrwvaEF5zXb26Fz9rcQpDWS57CtERHpNehXCPcNoHGKutQY" (some 1) (Or.inl (by decide))
